import Mathlib

/-!
Shallow embedding of the Real-Time-Student-Attendance-System repository.

The embedding covers the two core source files:

* `src/attendance_processor.py` — the ingestion pipeline
  (`AttendanceProcessor.process_attendance`, `get_attendance_stats`, and the
  Cassandra schema created in `_setup_cassandra`), and
* `src/attendance_analysis.py` — the analytics engine
  (`AttendanceAnalyzer.generate_insights` and `print_insights`).

Modelling conventions:

* `student_id` is a Python int (`Int`), `lecture_id` a Python str (`String`).
* Timestamps are minutes since an epoch that falls on a Monday at 00:00; the
  only operations the source performs on a `datetime` are equality/ordering
  (as part of the Cassandra clustering key), `.dt.hour` and `.dt.day_name()`,
  all of which are faithfully represented on this encoding.
* The Redis Bloom filter is modelled as the deterministic answer function
  `bloom : StudentId → Bool` that `BF.EXISTS` realises: for a fixed filter
  state the reply for a given id is a fixed boolean (false positives are
  simply ids mapped to `true`).
* The Cassandra table `attendance` (created in `_setup_cassandra`, lines
  64–72) has `PRIMARY KEY ((lecture_id), timestamp, student_id)`; a CQL
  `INSERT` is an upsert on the primary key, which `cassandraInsert` models:
  it replaces the row with an equal key if one exists and appends otherwise.
* The per-lecture HyperLogLog registers are modelled by the set of distinct
  values inserted with `PFADD`; `PFCOUNT` of a key never written is 0 and the
  estimate of an empty register is exactly 0, so `Finset.card` is faithful
  for the states the claims touch, and `PFADD` is idempotent on this model
  exactly as the HLL estimate is.
* Backend availability is an environment record: each external call either
  succeeds or raises, as `redis`/`cassandra` driver calls do.
-/

namespace AttendanceSystem

abbrev StudentId := Int

abbrev LectureId := String

/-- Minutes since a Monday-00:00 epoch; stands for Python `datetime`. -/
abbrev Timestamp := Nat

/-- `pd.to_datetime(ts).dt.hour` on the minute encoding. -/
def hourOf (t : Timestamp) : Nat := t / 60 % 24

def dayNames : List String :=
  ["Monday", "Tuesday", "Wednesday", "Thursday", "Friday", "Saturday", "Sunday"]

/-- `pd.to_datetime(ts).dt.day_name()` on the minute encoding. -/
def dayNameOf (t : Timestamp) : String := dayNames.getD (t / 1440 % 7) ""

/-- A row of the Cassandra `attendance` table (schema from
`_setup_cassandra`, src/attendance_processor.py lines 64–72). -/
structure Row where
  student_id : StudentId
  lecture_id : LectureId
  timestamp : Timestamp
  is_valid : Bool
deriving DecidableEq, Repr

/-- The primary key declared for the `attendance` table:
`PRIMARY KEY ((lecture_id), timestamp, student_id)`. -/
def rowKey (r : Row) : LectureId × Timestamp × StudentId :=
  (r.lecture_id, r.timestamp, r.student_id)

/-- CQL `INSERT` is an upsert on the primary key: a row with an equal key is
overwritten, otherwise the row is appended to the partition. -/
def cassandraInsert (s : List Row) (r : Row) : List Row :=
  if s.any (fun r0 => decide (rowKey r0 = rowKey r)) then
    s.map (fun r0 => if rowKey r0 = rowKey r then r else r0)
  else
    s ++ [r]

/-- The inbound JSON payload as the processor sees it after `json.loads`
(src/attendance_processor.py line 103).  A `none` field is absent from the
JSON object and makes the corresponding `data[...]` lookup raise `KeyError`.
The `timestamp` field carries `some none` when the string is present but
`datetime.fromisoformat` rejects it.  The processor never reads
`event_type` or `is_valid`, but a producer may send them, so they are part
of the payload. -/
structure Payload where
  student_id : Option StudentId
  lecture_id : Option LectureId
  timestamp : Option (Option Timestamp)
  event_type : Option String
  is_valid : Option Bool
deriving DecidableEq

/-- A raw Pulsar message body: either bytes `json.loads` rejects, or a JSON
object payload. -/
inductive RawMessage
  | malformed
  | payload (p : Payload)
deriving DecidableEq

/-- The exceptions the deserialization steps of the `try` block can raise
(src/attendance_processor.py lines 103–106). -/
inductive ParseError
  | jsonDecode
  | missingStudentId
  | missingLectureId
  | missingTimestamp
  | badTimestamp
deriving DecidableEq, Repr

/-- A successfully deserialized event: the three fields the processor reads. -/
structure Event where
  student_id : StudentId
  lecture_id : LectureId
  timestamp : Timestamp
deriving DecidableEq

/-- Lines 103–106 of src/attendance_processor.py: `json.loads`, then
`data['student_id']`, `data['lecture_id']`,
`datetime.fromisoformat(data['timestamp'])`, in that order.  `event_type`
and `is_valid` are never read. -/
def parseMessage : RawMessage → Except ParseError Event
  | .malformed => .error .jsonDecode
  | .payload p =>
    match p.student_id with
    | none => .error .missingStudentId
    | some sid =>
      match p.lecture_id with
      | none => .error .missingLectureId
      | some lec =>
        match p.timestamp with
        | none => .error .missingTimestamp
        | some none => .error .badTimestamp
        | some (some t) => .ok { student_id := sid, lecture_id := lec, timestamp := t }

/-- Which backend call raised, mirroring which client object the exception
came from. -/
inductive Backend
  | validation
  | persistence
  | aggregation
deriving DecidableEq, Repr

/-- The error recorded by `logger.error(f"Error processing message: {e}")`
(line 135): the exception `e` distinguishes deserialization failures from
backend failures. -/
inductive ProcError
  | malformed (e : ParseError)
  | storeUnavailable (b : Backend)
deriving DecidableEq, Repr

/-- Externally visible actions of one iteration of the consume loop, in
program order. -/
inductive Action
  | insertRow (r : Row)
  | estimatorAdd (l : LectureId) (sid : StudentId)
  | logInfo
  | logError (e : ProcError)
  | ack
  | nack
deriving DecidableEq, Repr

def isAck : Action → Bool
  | .ack => true
  | _ => false

def isNack : Action → Bool
  | .nack => true
  | _ => false

/-- Whether each backend call of the current iteration raises. -/
structure Env where
  bfFails : Bool
  insertFails : Bool
  pfaddFails : Bool
deriving DecidableEq

def okEnv : Env := { bfFails := false, insertFails := false, pfaddFails := false }

/-- State of the three external stores seen by one worker. -/
structure SysState where
  bloom : StudentId → Bool
  store : List Row
  hll : LectureId → Finset StudentId

/-- The row built and bound at lines 116–124: `is_valid` is the Bloom-filter
answer for the message's `student_id`, never a payload field. -/
def persistedRow (st : SysState) (ev : Event) : Row :=
  { student_id := ev.student_id, lecture_id := ev.lecture_id,
    timestamp := ev.timestamp, is_valid := st.bloom ev.student_id }

/-- One iteration of the `while True` receive loop, lines 100–136 of
src/attendance_processor.py: deserialize, `BF.EXISTS`, `INSERT`, conditional
`PFADD`, `logger.info`, `acknowledge`; any exception lands in the `except`
block which logs the error and calls `negative_acknowledge`. -/
def processMessage (env : Env) (st : SysState) (m : RawMessage) :
    SysState × List Action :=
  match parseMessage m with
  | .error e => (st, [.logError (.malformed e), .nack])
  | .ok ev =>
    if env.bfFails then
      (st, [.logError (.storeUnavailable .validation), .nack])
    else
      let isv := st.bloom ev.student_id
      if env.insertFails then
        (st, [.logError (.storeUnavailable .persistence), .nack])
      else
        let r := persistedRow st ev
        let st1 : SysState := { st with store := cassandraInsert st.store r }
        if isv then
          if env.pfaddFails then
            (st1, [.insertRow r, .logError (.storeUnavailable .aggregation), .nack])
          else
            ({ st1 with
                hll := fun l =>
                  if l = ev.lecture_id then insert ev.student_id (st1.hll l)
                  else st1.hll l },
             [.insertRow r, .estimatorAdd ev.lecture_id ev.student_id, .logInfo, .ack])
        else
          (st1, [.insertRow r, .logInfo, .ack])

/-- The success condition of one iteration: every step of the `try` block
completes, where the `PFADD` call is only ever attempted for a valid
student. -/
def processSucceeds (env : Env) (st : SysState) (m : RawMessage) : Bool :=
  match parseMessage m with
  | .error _ => false
  | .ok ev =>
    !env.bfFails && !env.insertFails && (!(st.bloom ev.student_id) || !env.pfaddFails)

/-- The lecture of a message, when deserialization succeeds. -/
def parsedLecture (m : RawMessage) : Option LectureId :=
  match parseMessage m with
  | .ok ev => some ev.lecture_id
  | .error _ => none

/-- Fold of the receive loop over a finite message prefix, threading the
store state; each message comes with the backend availability it meets. -/
def processAll (st : SysState) : List (Env × RawMessage) → SysState
  | [] => st
  | (e, m) :: rest => processAll (processMessage e st m).1 rest

/-- A worker before any message was processed: empty table, no HLL key. -/
def initialState (bloom : StudentId → Bool) : SysState :=
  { bloom := bloom, store := [], hll := fun _ => ∅ }

/-- Result shape of `get_attendance_stats` (lines 149–165). -/
structure Stats where
  unique_attendees : Nat
  attendance_records : List (StudentId × Timestamp)
deriving DecidableEq, Repr

/-- `get_attendance_stats`, src/attendance_processor.py lines 149–165:
`PFCOUNT` of the lecture's HLL key (0 when the key was never written),
then a `SELECT student_id, timestamp … WHERE lecture_id = %s`. -/
def getAttendanceStats (st : SysState) (l : LectureId) : Stats :=
  { unique_attendees := (st.hll l).card
  , attendance_records :=
      (st.store.filter (fun r => decide (r.lecture_id = l))).map
        (fun r => (r.student_id, r.timestamp)) }

/-- A fetched attendance record, one row of the DataFrame built by
`_fetch_attendance_data` (src/attendance_analysis.py lines 19–52). -/
structure ARecord where
  student_id : StudentId
  lecture_id : LectureId
  timestamp : Timestamp
  is_valid : Bool
deriving DecidableEq, Repr

def mkRec (sid : StudentId) (lec : LectureId) (t : Timestamp) (v : Bool) : ARecord :=
  { student_id := sid, lecture_id := lec, timestamp := t, is_valid := v }

/-- Python `<` on characters: comparison of Unicode code points. -/
def charLtb (c d : Char) : Bool := decide (c.val.toNat < d.val.toNat)

/-- Python `<` on strings as lists of characters: lexicographic comparison
by code point. -/
def strLtbAux : List Char → List Char → Bool
  | [], [] => false
  | [], _ :: _ => true
  | _ :: _, [] => false
  | c :: cs, d :: ds =>
    if charLtb c d then true else if charLtb d c then false else strLtbAux cs ds

/-- Python `<` on strings (lexicographic by code point); agrees with
Mathlib's `String` order ([[strLtb_iff]]) but reduces inside the kernel. -/
def strLtb (a b : String) : Bool := strLtbAux a.data b.data

/-- Python `<=` on strings. -/
def strLeb (a b : String) : Bool := !(strLtb b a)

/-- Python `<=` on ints. -/
def intLeb (a b : Int) : Bool := decide (a ≤ b)

/-- `df.groupby(k).size()` with pandas' default `sort=True`: the distinct
keys in ascending order (for `leb` the Python ordering of the key type),
each with its number of occurrences. -/
def groupCounts {κ : Type} [DecidableEq κ] (leb : κ → κ → Bool) (keys : List κ) :
    List (κ × Nat) :=
  ((keys.dedup).insertionSort (fun a b => leb a b = true)).map
    (fun k => (k, keys.count k))

/-- `Series.median()` of the values of an integer series: sort ascending,
take the middle element, or the mean of the two middle elements when the
length is even.  (pandas returns NaN on an empty series; every use below
filters an empty series to an empty result whatever this value is, so 0 is
a harmless stand-in.) -/
def medianQ (xs : List Nat) : ℚ :=
  let s := xs.insertionSort (fun a b => a ≤ b)
  let n := s.length
  if n = 0 then 0
  else if n % 2 = 1 then (s.getD (n / 2) 0 : ℚ)
  else ((s.getD (n / 2 - 1) 0 : ℚ) + (s.getD (n / 2) 0 : ℚ)) / 2

/-- `Series.mean()` over integer values, exact in ℚ. -/
def meanQ (xs : List Nat) : ℚ :=
  if xs.length = 0 then 0 else ((xs.map (fun x => (x : ℚ))).sum) / (xs.length : ℚ)

/-- `Series.var()` with pandas' default `ddof=1` (sample variance); the
value is unused when `xs.length ≤ 1` (pandas yields NaN there and every
comparison against it is false, handled at the use site). -/
def sampleVarQ (xs : List Nat) : ℚ :=
  if xs.length ≤ 1 then 0
  else ((xs.map (fun x => ((x : ℚ) - meanQ xs) ^ 2)).sum) / ((xs.length : ℚ) - 1)

/-- `late_threshold = 9` (src/attendance_analysis.py line 67). -/
def lateThreshold : Nat := 9

/-- Line 68: `df[df['hour'] >= late_threshold].groupby('student_id').size()`. -/
def lateCounts (rs : List ARecord) : List (StudentId × Nat) :=
  groupCounts intLeb
    ((rs.filter (fun r => decide (lateThreshold ≤ hourOf r.timestamp))).map
      (fun r => r.student_id))

/-- Line 69: `late_students[late_students > late_students.median()]`.
Boolean indexing keeps the series' own (student-id) order. -/
def frequentLate (rs : List ARecord) : List (StudentId × Nat) :=
  (lateCounts rs).filter
    (fun p => decide (medianQ ((lateCounts rs).map (fun q => q.2)) < (p.2 : ℚ)))

/-- Lines 78–79: `df.groupby('day_of_week').size()`; day names are grouped
as strings, hence in alphabetical key order. -/
def dayPatterns (rs : List ARecord) : List (String × Nat) :=
  groupCounts strLeb (rs.map (fun r => dayNameOf r.timestamp))

/-- Line 88: `df.groupby('lecture_id').size()`. -/
def lectureTally (rs : List ARecord) : List (LectureId × Nat) :=
  groupCounts strLeb (rs.map (fun r => r.lecture_id))

/-- `Series.sort_values(ascending=False)`: pandas (`nargsort`) computes an
ascending argsort and reverses it.  On the small arrays of this system
numpy's introsort is in its stable insertion-sort regime, so the model is
a stable ascending sort by count followed by a reversal. -/
def sortCountsDesc {κ : Type} (l : List (κ × Nat)) : List (κ × Nat) :=
  (l.insertionSort (fun a b => a.2 ≤ b.2)).reverse

/-- Line 94: `lecture_attendance.head(3)`. -/
def mostAttended (rs : List ARecord) : List (LectureId × Nat) :=
  (sortCountsDesc (lectureTally rs)).take 3

/-- Line 95: `lecture_attendance.tail(3)` — the last three rows. -/
def leastAttended (rs : List ARecord) : List (LectureId × Nat) :=
  let s := sortCountsDesc (lectureTally rs)
  s.drop (s.length - 3)

/-- Line 100: `df.groupby('student_id').size()`. -/
def subjectCounts (rs : List ARecord) : List (StudentId × Nat) :=
  groupCounts intLeb (rs.map (fun r => r.student_id))

/-- Lines 100–103: keep students with
`count > median + std` (sample std, `ddof=1`).  Since both sides of the
comparison against `std = sqrt(var)` are involved, `c > median + sqrt(var)`
is rewritten as the equivalent `c > median ∧ (c - median)² > var`; with a
single subject pandas' std is NaN and the comparison is false, which the
length guard reproduces. -/
def consistentStudents (rs : List ARecord) : List (StudentId × Nat) :=
  let cs := subjectCounts rs
  let vals := cs.map (fun p => p.2)
  if vals.length < 2 then []
  else
    cs.filter (fun p =>
      decide (medianQ vals < (p.2 : ℚ) ∧
        sampleVarQ vals < ((p.2 : ℚ) - medianQ vals) ^ 2))

/-- Line 112: `df[~df['is_valid']].groupby('student_id').size()`; the
`.to_dict() if not empty else {}` at line 117 is the identity on this list
model. -/
def invalidAttempts (rs : List ARecord) : List (StudentId × Nat) :=
  groupCounts intLeb ((rs.filter (fun r => !r.is_valid)).map (fun r => r.student_id))

/-- The structured `data` payload of an insight (§ the three shapes the
five insights use). -/
inductive InsightData
  | studentCounts (m : List (StudentId × Nat))
  | dayCounts (m : List (String × Nat))
  | rankings (most least : List (LectureId × Nat))
deriving DecidableEq, Repr

structure Insight where
  title : String
  description : String
  data : InsightData
deriving DecidableEq, Repr

def latecomerDescription (rs : List ARecord) : String :=
  "Found " ++ toString (frequentLate rs).length ++
    " students who frequently arrive after " ++ toString lateThreshold ++ ":00 AM"

/-- `generate_insights`, src/attendance_analysis.py lines 54–120: empty
DataFrame short-circuits to `[]`; otherwise the five insights are appended
in program order. -/
def generateInsights (rs : List ARecord) : List Insight :=
  if rs.isEmpty then []
  else
    [ { title := "Habitual Latecomers"
      , description := latecomerDescription rs
      , data := .studentCounts (frequentLate rs) }
    , { title := "Attendance by Day"
      , description := "Distribution of attendance across different days"
      , data := .dayCounts (dayPatterns rs) }
    , { title := "Lecture Attendance Rankings"
      , description := "Most and least attended lectures"
      , data := .rankings (mostAttended rs) (leastAttended rs) }
    , { title := "Most Consistent Attendees"
      , description := "Students with above-average attendance"
      , data := .studentCounts (consistentStudents rs) }
    , { title := "Invalid Attendance Attempts"
      , description := "Number of invalid attendance attempts by student ID"
      , data := .studentCounts (invalidAttempts rs) } ]

def renderStudentPairs (m : List (StudentId × Nat)) : List String :=
  m.map (fun p => toString p.1 ++ ": " ++ toString p.2)

def renderNested (key : String) (m : List (LectureId × Nat)) : List String :=
  ("\n" ++ key ++ ":") :: m.map (fun p => "  " ++ p.1 ++ ": " ++ toString p.2)

/-- Rendering of one insight's `data` field, mirroring the
`isinstance(...) and insight['data']` truthiness test of lines 132–141. -/
def renderData : InsightData → List String
  | .studentCounts m =>
    if m.isEmpty then ["No data available"] else renderStudentPairs m
  | .dayCounts m =>
    if m.isEmpty then ["No data available"]
    else m.map (fun p => p.1 ++ ": " ++ toString p.2)
  | .rankings most least =>
    renderNested "most_attended" most ++ renderNested "least_attended" least

def separatorLine : String :=
  "--------------------------------------------------"

def renderInsight (i : Insight) : List String :=
  ("\n=== " ++ i.title ++ " ===") :: i.description :: "Data:" ::
    (renderData i.data ++ [separatorLine])

/-- `print_insights`, src/attendance_analysis.py lines 122–142, as the list
of chunks passed to `print`: an empty insight list produces the single
"no data" notice and returns before the loop. -/
def printInsights (ins : List Insight) : List String :=
  if ins.isEmpty then ["\nNo insights available - no attendance data found."]
  else (ins.map renderInsight).flatten

/-! ### Order correspondence lemmas -/

theorem charLtb_iff (c d : Char) : charLtb c d = true ↔ c < d := by
  simp only [charLtb, decide_eq_true_eq]
  exact Iff.rfl

theorem charLtb_false_iff (c d : Char) : charLtb c d = false ↔ ¬c < d := by
  rw [← charLtb_iff, Bool.not_eq_true]

theorem strLtbAux_iff :
    ∀ l₁ l₂ : List Char, strLtbAux l₁ l₂ = true ↔ List.Lex (· < ·) l₁ l₂
  | [], [] => by
    simp only [strLtbAux, Bool.false_eq_true, false_iff]
    exact fun h => by cases h
  | [], d :: ds => by
    simp only [strLtbAux, true_iff]
    exact List.Lex.nil
  | _ :: _, [] => by
    simp only [strLtbAux, Bool.false_eq_true, false_iff]
    exact fun h => by cases h
  | c :: cs, d :: ds => by
    rw [strLtbAux]
    cases h1 : charLtb c d with
    | true =>
      simp only [if_true, true_iff]
      exact List.Lex.rel ((charLtb_iff c d).mp h1)
    | false =>
      simp only [Bool.false_eq_true, if_false]
      cases h2 : charLtb d c with
      | true =>
        simp only [if_true, Bool.false_eq_true, false_iff]
        intro h
        cases h with
        | cons _ => exact lt_irrefl c ((charLtb_iff c c).mp h2)
        | rel h' => exact (charLtb_false_iff c d).mp h1 h'
      | false =>
        simp only [Bool.false_eq_true, if_false]
        have hcd : c = d :=
          le_antisymm (not_lt.mp ((charLtb_false_iff d c).mp h2))
            (not_lt.mp ((charLtb_false_iff c d).mp h1))
        rw [strLtbAux_iff cs ds]
        subst hcd
        constructor
        · exact fun h => List.Lex.cons h
        · intro h
          cases h with
          | cons h' => exact h'
          | rel h' => exact absurd h' (lt_irrefl c)

theorem strLtb_iff (a b : String) : strLtb a b = true ↔ a < b := by
  rw [String.lt_iff_toList_lt]
  exact strLtbAux_iff a.data b.data

theorem strLeb_iff (a b : String) : strLeb a b = true ↔ a ≤ b := by
  rw [strLeb, Bool.not_eq_true', ← Bool.not_eq_true, strLtb_iff, not_lt]

theorem intLeb_iff (a b : Int) : intLeb a b = true ↔ a ≤ b := by
  simp [intLeb]

/-! ### Results of the stable ascending sort by count

pandas sorts the tally's values ascending (stably, for the array sizes at
hand) over an index already in ascending key order, then reverses for
`ascending=False`.  The lemmas characterise the result as sorted by the
strict lexicographic (count, key) order. -/

/-- Strict lexicographic (count, key) order. -/
def cntKeyLt {κ : Type} [LT κ] (a b : κ × Nat) : Prop :=
  a.2 < b.2 ∨ (a.2 = b.2 ∧ a.1 < b.1)

theorem orderedInsert_pairwise_cntKeyLt {κ : Type} [LinearOrder κ]
    (a : κ × Nat) (l : List (κ × Nat)) (hp : l.Pairwise cntKeyLt)
    (hdom : ∀ b ∈ l, a.2 = b.2 → a.1 < b.1) :
    (l.orderedInsert (fun x y => x.2 ≤ y.2) a).Pairwise cntKeyLt := by
  induction l with
  | nil => simp [List.orderedInsert]
  | cons b t ih =>
    rcases List.pairwise_cons.mp hp with ⟨hb, ht⟩
    rw [List.orderedInsert]
    split_ifs with hle
    · refine List.pairwise_cons.mpr ⟨?_, hp⟩
      intro c hc
      rcases List.mem_cons.mp hc with rfl | hct
      · rcases lt_or_eq_of_le hle with h | h
        · exact Or.inl h
        · exact Or.inr ⟨h, hdom c (List.mem_cons_self _ _) h⟩
      · have hb2c2 : b.2 ≤ c.2 := by
          rcases hb c hct with h | ⟨h, _⟩
          · exact le_of_lt h
          · exact le_of_eq h
        rcases lt_or_eq_of_le (le_trans hle hb2c2) with h | h
        · exact Or.inl h
        · exact Or.inr ⟨h, hdom c (List.mem_cons_of_mem _ hct) h⟩
    · have hba : b.2 < a.2 := lt_of_not_le hle
      refine List.pairwise_cons.mpr
        ⟨?_, ih ht (fun c hc hc2 => hdom c (List.mem_cons_of_mem _ hc) hc2)⟩
      intro c hc
      rcases (List.mem_orderedInsert _).mp hc with rfl | hct
      · exact Or.inl hba
      · exact hb c hct

theorem insertionSort_pairwise_cntKeyLt {κ : Type} [LinearOrder κ]
    (l : List (κ × Nat)) (hl : l.Pairwise (fun a b => a.1 < b.1)) :
    (l.insertionSort (fun x y => x.2 ≤ y.2)).Pairwise cntKeyLt := by
  induction l with
  | nil => simp
  | cons a t ih =>
    rcases List.pairwise_cons.mp hl with ⟨ha, ht⟩
    rw [List.insertionSort]
    exact orderedInsert_pairwise_cntKeyLt a _ (ih ht)
      (fun b hb _ => ha b ((List.mem_insertionSort _).mp hb))

theorem groupCounts_pairwise {κ : Type} [LinearOrder κ] [DecidableEq κ]
    (leb : κ → κ → Bool) (hleb : ∀ a b, leb a b = true ↔ a ≤ b) (keys : List κ) :
    (groupCounts leb keys).Pairwise (fun a b => a.1 < b.1) := by
  unfold groupCounts
  rw [List.pairwise_map]
  haveI : IsTotal κ (fun a b => leb a b = true) :=
    ⟨fun a b => by
      rcases le_total a b with h | h
      · exact Or.inl ((hleb a b).mpr h)
      · exact Or.inr ((hleb b a).mpr h)⟩
  haveI : IsTrans κ (fun a b => leb a b = true) :=
    ⟨fun a b c hab hbc =>
      (hleb a c).mpr (le_trans ((hleb a b).mp hab) ((hleb b c).mp hbc))⟩
  have hsorted : (keys.dedup.insertionSort (fun a b => leb a b = true)).Sorted (· ≤ ·) :=
    (List.sorted_insertionSort _ keys.dedup).imp (fun h => (hleb _ _).mp h)
  have hnodup : (keys.dedup.insertionSort (fun a b => leb a b = true)).Nodup :=
    ((List.perm_insertionSort _ _).nodup_iff).mpr keys.nodup_dedup
  exact hsorted.lt_of_le hnodup

/-- The count-descending ranking is strictly sorted by descending count,
with ties strictly sorted by descending key. -/
theorem sortCountsDesc_pairwise {κ : Type} [LinearOrder κ]
    (l : List (κ × Nat)) (hl : l.Pairwise (fun a b => a.1 < b.1)) :
    (sortCountsDesc l).Pairwise (fun a b => b.2 < a.2 ∨ (a.2 = b.2 ∧ b.1 < a.1)) := by
  unfold sortCountsDesc
  rw [List.pairwise_reverse]
  exact (insertionSort_pairwise_cntKeyLt l hl).imp
    (fun h => by
      rcases h with h | ⟨h, h'⟩
      · exact Or.inl h
      · exact Or.inr ⟨h.symm, h'⟩)

/-! ### Claim theorems -/

/-- C1: for every inbound message, `process_attendance` acknowledges the
delivery if and only if deserialization, validation, persistence, and the
conditional aggregate update all complete without error; on any failure in
those steps it issues exactly one negative acknowledgment instead, and the
acknowledgment is issued only after the Event Store write and the estimator
update have completed (it is the last action of the iteration, preceded in
the trace by the row insert and, for valid events, the estimator insert). -/
theorem c1_ack_iff_all_steps_succeed (env : Env) (st : SysState) (m : RawMessage) :
    ((processMessage env st m).2.countP isAck = 1 ↔ processSucceeds env st m = true) ∧
    (processSucceeds env st m = false →
      (processMessage env st m).2.countP isAck = 0 ∧
      (processMessage env st m).2.countP isNack = 1) ∧
    (processSucceeds env st m = true →
      (processMessage env st m).2.countP isNack = 0 ∧
      (processMessage env st m).2.getLast? = some Action.ack ∧
      ∀ ev, parseMessage m = Except.ok ev →
        Action.insertRow (persistedRow st ev) ∈ (processMessage env st m).2 ∧
        (st.bloom ev.student_id = true →
          Action.estimatorAdd ev.lecture_id ev.student_id ∈ (processMessage env st m).2)) := by
  cases hp : parseMessage m with
  | error e =>
    simp [processMessage, processSucceeds, hp, isAck, isNack, List.countP_cons]
  | ok ev =>
    cases hbf : env.bfFails <;> cases hins : env.insertFails <;>
      cases hv : st.bloom ev.student_id <;> cases hpf : env.pfaddFails <;>
      simp [processMessage, processSucceeds, hp, hbf, hins, hv, hpf, isAck, isNack,
        List.countP_cons, List.countP_nil]

/-- A concrete worker state used by the witnesses: Bloom filter that knows
exactly student 7, empty table, no estimator keys. -/
def stW : SysState :=
  { bloom := fun sid => decide (sid = 7), store := [], hll := fun _ => ∅ }

/-- A concrete well-formed payload used by the witnesses. -/
def pW : Payload :=
  { student_id := some 7, lecture_id := some "L1", timestamp := some (some 540),
    event_type := some "entry", is_valid := some false }

def mW : RawMessage := RawMessage.payload pW

/-- Witness for C1 at a concrete message: with all backends available, a
well-formed payload is processed and acknowledged exactly once. -/
theorem c1_witness : (processMessage okEnv stW mW).2.countP isAck = 1 :=
  (c1_ack_iff_all_steps_succeed _ _ _).1.mpr (by decide)

/-! ### Helper lemmas about the processing step -/

theorem processMessage_bloom (env : Env) (st : SysState) (m : RawMessage) :
    (processMessage env st m).1.bloom = st.bloom := by
  cases hp : parseMessage m with
  | error e => simp [processMessage, hp]
  | ok ev =>
    cases hbf : env.bfFails <;> cases hins : env.insertFails <;>
      cases hv : st.bloom ev.student_id <;> cases hpf : env.pfaddFails <;>
      simp [processMessage, hp, hbf, hins, hv, hpf]

/-- When the Bloom query and the insert go through, the resulting table is
the upsert of the computed row — whether or not the later `PFADD` fails. -/
theorem processMessage_store (env : Env) (st : SysState) (m : RawMessage) (ev : Event)
    (hok : parseMessage m = Except.ok ev)
    (hbf : env.bfFails = false) (hins : env.insertFails = false) :
    (processMessage env st m).1.store = cassandraInsert st.store (persistedRow st ev) := by
  cases hv : st.bloom ev.student_id <;> cases hpf : env.pfaddFails <;>
    simp [processMessage, hok, hbf, hins, hv, hpf]

theorem processSucceeds_spec (env : Env) (st : SysState) (m : RawMessage) (ev : Event)
    (hok : parseMessage m = Except.ok ev) (hs : processSucceeds env st m = true) :
    env.bfFails = false ∧ env.insertFails = false ∧
      (st.bloom ev.student_id = true → env.pfaddFails = false) := by
  unfold processSucceeds at hs
  rw [hok] at hs
  cases hbf : env.bfFails <;> cases hins : env.insertFails <;>
    cases hv : st.bloom ev.student_id <;> cases hpf : env.pfaddFails <;>
    simp_all

theorem countP_map_congr {α : Type} (g : α → α) (p : α → Bool) (s : List α)
    (h : ∀ x ∈ s, p (g x) = p x) : (s.map g).countP p = s.countP p := by
  induction s with
  | nil => rfl
  | cons a t ih =>
    simp only [List.map_cons, List.countP_cons, h a (List.mem_cons_self _ _),
      ih (fun x hx => h x (List.mem_cons_of_mem _ hx))]

/-- The upsert leaves exactly one row under the written key, provided the
table was not already corrupted with a duplicated key. -/
theorem countKey_cassandraInsert (s : List Row) (r : Row)
    (h : s.countP (fun r0 => decide (rowKey r0 = rowKey r)) ≤ 1) :
    (cassandraInsert s r).countP (fun r0 => decide (rowKey r0 = rowKey r)) = 1 := by
  unfold cassandraInsert
  split_ifs with hany
  · have hpos : 0 < s.countP (fun r0 => decide (rowKey r0 = rowKey r)) := by
      rcases List.any_eq_true.mp hany with ⟨x, hx, hpx⟩
      exact List.countP_pos_iff.mpr ⟨x, hx, hpx⟩
    have hmap := countP_map_congr (fun r0 => if rowKey r0 = rowKey r then r else r0)
      (fun r0 => decide (rowKey r0 = rowKey r)) s
      (fun x _ => by by_cases hk : rowKey x = rowKey r <;> simp [hk])
    rw [hmap]
    omega
  · have hzero : s.countP (fun r0 => decide (rowKey r0 = rowKey r)) = 0 := by
      rw [List.countP_eq_zero]
      intro a ha
      have := List.any_eq_true.not.mp hany
      push_neg at this
      exact this a ha
    simp [List.countP_append, hzero]

theorem length_cassandraInsert_of_present (s : List Row) (r : Row)
    (h : s.any (fun r0 => decide (rowKey r0 = rowKey r)) = true) :
    (cassandraInsert s r).length = s.length := by
  unfold cassandraInsert
  rw [if_pos h, List.length_map]

/-- C2: persistence is idempotent under the natural key
`(lecture_id, timestamp, student_id)`: successfully processing the same
logical event twice (simulating redelivery) leaves the Event Store with
exactly one logical record under that key, and the second write adds no
row at all. -/
theorem c2_idempotent_persistence (env : Env) (st : SysState) (m : RawMessage)
    (ev : Event) (hok : parseMessage m = Except.ok ev)
    (hu : st.store.countP
        (fun r0 => decide (rowKey r0 = (ev.lecture_id, ev.timestamp, ev.student_id))) ≤ 1)
    (hs : processSucceeds env st m = true) :
    ((processMessage env (processMessage env st m).1 m).1.store.countP
        (fun r0 => decide (rowKey r0 = (ev.lecture_id, ev.timestamp, ev.student_id))) = 1) ∧
    (processMessage env (processMessage env st m).1 m).1.store.length =
      (processMessage env st m).1.store.length := by
  obtain ⟨hbf, hins, -⟩ := processSucceeds_spec env st m ev hok hs
  have hb1 : (processMessage env st m).1.bloom = st.bloom := processMessage_bloom env st m
  have hstore1 : (processMessage env st m).1.store =
      cassandraInsert st.store (persistedRow st ev) :=
    processMessage_store env st m ev hok hbf hins
  have hrow1 : persistedRow (processMessage env st m).1 ev = persistedRow st ev := by
    unfold persistedRow
    rw [hb1]
  have hstore2 : (processMessage env (processMessage env st m).1 m).1.store =
      cassandraInsert (processMessage env st m).1.store (persistedRow st ev) := by
    rw [processMessage_store env (processMessage env st m).1 m ev hok hbf hins, hrow1]
  have h1 : (processMessage env st m).1.store.countP
      (fun r0 => decide (rowKey r0 = (ev.lecture_id, ev.timestamp, ev.student_id))) = 1 := by
    rw [hstore1]
    exact countKey_cassandraInsert st.store (persistedRow st ev) hu
  refine ⟨?_, ?_⟩
  · rw [hstore2]
    exact countKey_cassandraInsert _ (persistedRow st ev) (le_of_eq h1)
  · rw [hstore2]
    apply length_cassandraInsert_of_present
    rw [List.any_eq_true]
    have := List.countP_pos_iff.mp (by rw [h1]; exact Nat.one_pos)
    exact this

/-- Witness for C2: redelivering the same payload to a fresh worker yields
one row under its key and an unchanged table length. -/
theorem c2_witness :
    ((processMessage okEnv (processMessage okEnv stW mW).1 mW).1.store.countP
        (fun r0 => decide (rowKey r0 = ("L1", 540, 7))) = 1) ∧
    (processMessage okEnv (processMessage okEnv stW mW).1 mW).1.store.length =
      (processMessage okEnv stW mW).1.store.length :=
  c2_idempotent_persistence okEnv stW mW
    { student_id := 7, lecture_id := "L1", timestamp := 540 }
    rfl (by decide) (by decide)

/-- C3: the subject is inserted into the Cardinality Estimator (keyed by
its lecture) if and only if the computed `is_valid` is true (for a
successfully processed event); an event whose `is_valid` is false leaves
the estimator state of every lecture unchanged and emits no estimator
insertion at all, whatever the backends do. -/
theorem c3_estimator_iff_valid (env : Env) (st : SysState) (m : RawMessage)
    (ev : Event) (hok : parseMessage m = Except.ok ev) :
    (st.bloom ev.student_id = false →
      (processMessage env st m).1.hll = st.hll ∧
      ∀ l sid, Action.estimatorAdd l sid ∉ (processMessage env st m).2) ∧
    (processSucceeds env st m = true →
      (Action.estimatorAdd ev.lecture_id ev.student_id ∈ (processMessage env st m).2 ↔
        st.bloom ev.student_id = true)) := by
  cases hbf : env.bfFails <;> cases hins : env.insertFails <;>
    cases hv : st.bloom ev.student_id <;> cases hpf : env.pfaddFails <;>
    simp [processMessage, processSucceeds, hok, hbf, hins, hv, hpf]

/-- A payload whose student the Bloom filter does not know. -/
def pInvalid : Payload :=
  { student_id := some 8, lecture_id := some "L1", timestamp := some (some 540),
    event_type := some "entry", is_valid := some true }

/-- Witness for C3: processing an invalid event leaves every lecture's
estimator untouched (even though the producer claimed `is_valid: true`). -/
theorem c3_witness :
    (processMessage okEnv stW (RawMessage.payload pInvalid)).1.hll = stW.hll :=
  ((c3_estimator_iff_valid okEnv stW (RawMessage.payload pInvalid)
    { student_id := 8, lecture_id := "L1", timestamp := 540 } rfl).1 (by decide)).1

/-- C4: the persisted `is_valid` flag is a function only of the Membership
Oracle's answer for the message's `student_id`: two payloads agreeing on
`student_id`, `lecture_id` and `timestamp` — whatever their `event_type`
or producer-supplied `is_valid` fields — produce identical processing
results, and the row written is the parsed event with
`is_valid := bloom(student_id)`. -/
theorem c4_validity_from_oracle_only (env : Env) (st : SysState) (p1 p2 : Payload)
    (hs : p1.student_id = p2.student_id) (hl : p1.lecture_id = p2.lecture_id)
    (ht : p1.timestamp = p2.timestamp) :
    processMessage env st (RawMessage.payload p1) =
      processMessage env st (RawMessage.payload p2) ∧
    (∀ ev, parseMessage (RawMessage.payload p1) = Except.ok ev →
      env.bfFails = false → env.insertFails = false →
      (processMessage env st (RawMessage.payload p1)).1.store =
        cassandraInsert st.store
          { student_id := ev.student_id, lecture_id := ev.lecture_id,
            timestamp := ev.timestamp, is_valid := st.bloom ev.student_id }) := by
  have hpe : parseMessage (RawMessage.payload p1) = parseMessage (RawMessage.payload p2) := by
    simp only [parseMessage, hs, hl, ht]
  constructor
  · unfold processMessage
    rw [hpe]
  · intro ev hok hbf hins
    exact processMessage_store env st _ ev hok hbf hins

/-- `pW` with the producer-controlled fields changed: `event_type` omitted
and `is_valid` claimed `true` instead of `false`. -/
def pW2 : Payload :=
  { student_id := some 7, lecture_id := some "L1", timestamp := some (some 540),
    event_type := none, is_valid := some true }

/-- Witness for C4: flipping/omitting the producer's `is_valid` and
`event_type` fields changes nothing about the processing result. -/
theorem c4_witness :
    processMessage okEnv stW (RawMessage.payload pW) =
      processMessage okEnv stW (RawMessage.payload pW2) :=
  (c4_validity_from_oracle_only okEnv stW pW pW2 rfl rfl rfl).1

/-- C5: on an empty Event Store `generate_insights` returns the empty
sequence (rather than raising), and rendering that empty sequence produces
the single "no data" notice instead of iterating over insights. -/
theorem c5_empty_store :
    generateInsights [] = [] ∧
    printInsights (generateInsights []) =
      ["\nNo insights available - no attendance data found."] :=
  ⟨rfl, rfl⟩

/-- Three subjects with late-hour (≥ 9) event counts 5, 5 and 1: the
dataset of the Habitual Latecomers test case. -/
def sampleC6 : List ARecord :=
  ((List.range 5).map (fun i => mkRec 1 "L1" (540 + i) true)) ++
  ((List.range 5).map (fun i => mkRec 2 "L1" (540 + i) true)) ++
  [mkRec 3 "L1" 540 true]

/-- C6 counterexample: on late-hour counts {5, 5, 1} the median is 5 and
the strict comparison `count > median` holds for nobody, so the reported
set is empty — not "exactly the subjects with count 5" as the claim
states. -/
theorem c6_counterexample :
    lateCounts sampleC6 = [(1, 5), (2, 5), (3, 1)] ∧
    frequentLate sampleC6 = [] ∧
    ((lateCounts sampleC6).filter (fun p => decide (p.2 = 5))).map Prod.fst = [1, 2] ∧
    (frequentLate sampleC6).map Prod.fst ≠
      ((lateCounts sampleC6).filter (fun p => decide (p.2 = 5))).map Prod.fst := by
  exact ⟨by decide, by decide, by decide, by decide⟩

/-- C6 amended: Habitual Latecomers reports exactly the subjects whose
late-hour count strictly exceeds the median of the per-subject late
counts; on the {5, 5, 1} dataset this set is empty (5 > 5 fails), and the
insight emitted first by `generate_insights` carries exactly that set. -/
theorem c6_amended (rs : List ARecord) :
    (∀ p, p ∈ frequentLate rs ↔
      p ∈ lateCounts rs ∧
        medianQ ((lateCounts rs).map (fun q => q.2)) < (p.2 : ℚ)) ∧
    frequentLate sampleC6 = [] ∧
    (rs.isEmpty = false →
      (generateInsights rs).head? = some
        { title := "Habitual Latecomers"
        , description := latecomerDescription rs
        , data := InsightData.studentCounts (frequentLate rs) }) := by
  refine ⟨?_, by decide, ?_⟩
  · intro p
    simp [frequentLate, List.mem_filter]
  · intro h
    simp [generateInsights, h]

/-- Witness for C6's amended claim at the concrete dataset: the first
insight on the {5, 5, 1} data reports no latecomers. -/
theorem c6_amended_witness :
    (generateInsights sampleC6).head? = some
      { title := "Habitual Latecomers"
      , description := latecomerDescription sampleC6
      , data := InsightData.studentCounts (frequentLate sampleC6) } :=
  (c6_amended sampleC6).2.2 (by decide)

/-- Five lectures with event counts 10, 8, 6, 4, 2. -/
def sampleC7 : List ARecord :=
  ((List.range 10).map (fun i => mkRec (Int.ofNat i) "L1" (600 + i) true)) ++
  ((List.range 8).map (fun i => mkRec (Int.ofNat i) "L2" (600 + i) true)) ++
  ((List.range 6).map (fun i => mkRec (Int.ofNat i) "L3" (600 + i) true)) ++
  ((List.range 4).map (fun i => mkRec (Int.ofNat i) "L4" (600 + i) true)) ++
  ((List.range 2).map (fun i => mkRec (Int.ofNat i) "L5" (600 + i) true))

theorem sortCountsDesc_length {κ : Type} (l : List (κ × Nat)) :
    (sortCountsDesc l).length = l.length := by
  unfold sortCountsDesc
  rw [List.length_reverse]
  exact (List.perm_insertionSort _ _).length_eq

/-- C7: the rankings are the first 3 and last 3 rows of the
count-descending tally: on counts {10, 8, 6, 4, 2} most_attended carries
{10, 8, 6} and least_attended {6, 4, 2} (the middle lecture in both), and
with at most 3 lectures both lists are the entire tally. -/
theorem c7_rankings_head_tail (rs : List ARecord) :
    (mostAttended sampleC7 = [("L1", 10), ("L2", 8), ("L3", 6)] ∧
     leastAttended sampleC7 = [("L3", 6), ("L4", 4), ("L5", 2)] ∧
     (generateInsights sampleC7)[2]? = some
       { title := "Lecture Attendance Rankings"
       , description := "Most and least attended lectures"
       , data := InsightData.rankings (mostAttended sampleC7) (leastAttended sampleC7) }) ∧
    ((lectureTally rs).length ≤ 3 →
      mostAttended rs = sortCountsDesc (lectureTally rs) ∧
      leastAttended rs = sortCountsDesc (lectureTally rs)) := by
  constructor
  · exact ⟨by decide, by decide, rfl⟩
  · intro hlen
    have h3 : (sortCountsDesc (lectureTally rs)).length ≤ 3 := by
      rw [sortCountsDesc_length]
      exact hlen
    constructor
    · exact List.take_of_length_le h3
    · show (sortCountsDesc (lectureTally rs)).drop
          ((sortCountsDesc (lectureTally rs)).length - 3) = sortCountsDesc (lectureTally rs)
      rw [Nat.sub_eq_zero_of_le h3, List.drop_zero]

/-- Two lectures, "LA" and "LB", with one event each: a tie on count. -/
def sampleC8 : List ARecord := [mkRec 1 "LA" 600 true, mkRec 2 "LB" 700 true]

/-- Witness for C7: with at most three lectures, both ranking lists are the
whole count-descending tally. -/
theorem c7_witness :
    mostAttended sampleC8 = sortCountsDesc (lectureTally sampleC8) ∧
    leastAttended sampleC8 = sortCountsDesc (lectureTally sampleC8) :=
  (c7_rankings_head_tail sampleC8).2 (by decide)

/-- C8 counterexample: two lectures tied on count come out of
`sort_values(ascending=False)` in REVERSE lecture_id order ("LB" before
"LA"), because pandas computes an ascending (stable) argsort and reverses
it — not in natural key order as the claim states. -/
theorem c8_counterexample :
    mostAttended sampleC8 = [("LB", 1), ("LA", 1)] ∧
    mostAttended sampleC8 ≠ [("LA", 1), ("LB", 1)] := by
  exact ⟨by decide, by decide⟩

/-- C8 amended: within the rankings, lectures are ordered by strictly
descending count, and lectures tied on count appear in strictly descending
(reverse natural) lecture_id order. -/
theorem c8_amended (rs : List ARecord) :
    ((sortCountsDesc (lectureTally rs)).Pairwise
      (fun a b => b.2 < a.2 ∨ (a.2 = b.2 ∧ b.1 < a.1))) ∧
    ((mostAttended rs).Pairwise
      (fun a b => b.2 < a.2 ∨ (a.2 = b.2 ∧ b.1 < a.1))) ∧
    ((leastAttended rs).Pairwise
      (fun a b => b.2 < a.2 ∨ (a.2 = b.2 ∧ b.1 < a.1))) := by
  have h := sortCountsDesc_pairwise (lectureTally rs)
    (groupCounts_pairwise strLeb strLeb_iff _)
  exact ⟨h, h.sublist (List.take_sublist _ _), h.sublist (List.drop_sublist _ _)⟩

/-- A payload carrying `student_id`, `lecture_id` and a parsable
`timestamp`, but no `event_type` field at all. -/
def pNoEventType : Payload :=
  { student_id := some 7, lecture_id := some "L1", timestamp := some (some 540),
    event_type := none, is_valid := none }

/-- C9 counterexample: the processor never reads `event_type`, so a payload
missing it is NOT treated as malformed — it is fully processed, positively
acknowledged and no error is logged, contradicting the claim that a missing
`event_type` causes a malformed-event failure. -/
theorem c9_counterexample :
    pNoEventType.event_type = none ∧
    (processMessage okEnv stW (RawMessage.payload pNoEventType)).2.countP isAck = 1 ∧
    ∀ e, Action.logError e ∉ (processMessage okEnv stW (RawMessage.payload pNoEventType)).2 := by
  have htr : (processMessage okEnv stW (RawMessage.payload pNoEventType)).2 =
      [Action.insertRow
        { student_id := 7, lecture_id := "L1", timestamp := 540, is_valid := true },
       Action.estimatorAdd "L1" 7, Action.logInfo, Action.ack] := by decide
  refine ⟨rfl, by decide, ?_⟩
  intro e
  rw [htr]
  simp

/-- C9 amended: a payload that fails to parse or misses one of the fields
the processor reads — `student_id`, `lecture_id`, `timestamp` (but not
`event_type`, which is never read) — produces a logged malformed-event
error and a single negative acknowledgment; backend failures instead log a
store-unavailability error, never a malformed-event one, also ending in a
single negative acknowledgment — the two failure families stay
distinguishable in the log. -/
theorem c9_amended (env : Env) (st : SysState) (m : RawMessage) :
    (∀ e, parseMessage m = Except.error e →
      (processMessage env st m).2 =
        [Action.logError (ProcError.malformed e), Action.nack]) ∧
    (∀ ev, parseMessage m = Except.ok ev → processSucceeds env st m = false →
      ∃ b, Action.logError (ProcError.storeUnavailable b) ∈ (processMessage env st m).2 ∧
        (∀ e, Action.logError (ProcError.malformed e) ∉ (processMessage env st m).2) ∧
        (processMessage env st m).2.countP isNack = 1 ∧
        (processMessage env st m).2.countP isAck = 0) := by
  constructor
  · intro e he
    simp [processMessage, he]
  · intro ev hok hf
    cases hbf : env.bfFails with
    | true =>
      refine ⟨Backend.validation, ?_⟩
      simp [processMessage, hok, hbf, isAck, isNack, List.countP_cons]
    | false =>
      cases hins : env.insertFails with
      | true =>
        refine ⟨Backend.persistence, ?_⟩
        simp [processMessage, hok, hbf, hins, isAck, isNack, List.countP_cons]
      | false =>
        cases hv : st.bloom ev.student_id with
        | true =>
          cases hpf : env.pfaddFails with
          | true =>
            refine ⟨Backend.aggregation, ?_⟩
            simp [processMessage, hok, hbf, hins, hv, hpf, isAck, isNack,
              List.countP_cons]
          | false =>
            exfalso
            simp [processSucceeds, hok, hbf, hins, hv, hpf] at hf
        | false =>
          exfalso
          simp [processSucceeds, hok, hbf, hins, hv] at hf

/-- Witness for C9's amended claim: undecodable bytes produce exactly the
malformed-error log followed by the negative acknowledgment. -/
theorem c9_amended_witness :
    (processMessage okEnv stW RawMessage.malformed).2 =
      [Action.logError (ProcError.malformed ParseError.jsonDecode), Action.nack] :=
  (c9_amended okEnv stW RawMessage.malformed).1 ParseError.jsonDecode rfl

/-! ### Frame lemmas for lectures a message does not touch -/

theorem filter_map_replace (s : List Row) (r : Row) (l : LectureId)
    (h : r.lecture_id ≠ l) :
    ((s.map (fun r0 => if rowKey r0 = rowKey r then r else r0)).filter
      (fun r0 => decide (r0.lecture_id = l))) =
      s.filter (fun r0 => decide (r0.lecture_id = l)) := by
  induction s with
  | nil => rfl
  | cons a t ih =>
    by_cases hk : rowKey a = rowKey r
    · have ha : a.lecture_id = r.lecture_id := congrArg Prod.fst hk
      simp only [List.map_cons, List.filter_cons, hk, if_pos, ha, h, decide_eq_true_eq,
        if_neg, ih]
      simp [h, ha]
    · simp only [List.map_cons, List.filter_cons, if_neg hk]
      rw [ih]

theorem filter_cassandraInsert_ne (s : List Row) (r : Row) (l : LectureId)
    (h : r.lecture_id ≠ l) :
    ((cassandraInsert s r).filter (fun r0 => decide (r0.lecture_id = l))) =
      s.filter (fun r0 => decide (r0.lecture_id = l)) := by
  unfold cassandraInsert
  split_ifs with hany
  · exact filter_map_replace s r l h
  · simp [List.filter_append, h]

theorem processMessage_hll_other (env : Env) (st : SysState) (m : RawMessage)
    (l : LectureId) (h : parsedLecture m ≠ some l) :
    (processMessage env st m).1.hll l = st.hll l := by
  cases hp : parseMessage m with
  | error e => simp [processMessage, hp]
  | ok ev =>
    have hne : l ≠ ev.lecture_id := by
      intro heq
      exact h (by simp [parsedLecture, hp, heq])
    cases hbf : env.bfFails <;> cases hins : env.insertFails <;>
      cases hv : st.bloom ev.student_id <;> cases hpf : env.pfaddFails <;>
      simp [processMessage, hp, hbf, hins, hv, hpf, hne]

theorem processMessage_storefilter_other (env : Env) (st : SysState)
    (m : RawMessage) (l : LectureId) (h : parsedLecture m ≠ some l) :
    ((processMessage env st m).1.store.filter
      (fun r0 => decide (r0.lecture_id = l))) =
      st.store.filter (fun r0 => decide (r0.lecture_id = l)) := by
  cases hp : parseMessage m with
  | error e => simp [processMessage, hp]
  | ok ev =>
    have hne : ev.lecture_id ≠ l := by
      intro heq
      exact h (by simp [parsedLecture, hp, heq])
    cases hbf : env.bfFails <;> cases hins : env.insertFails <;>
      cases hv : st.bloom ev.student_id <;> cases hpf : env.pfaddFails <;>
      simp [processMessage, hp, hbf, hins, hv, hpf] <;>
      exact filter_cassandraInsert_ne st.store (persistedRow st ev) l hne

/-- The invariant behind C10: a lecture no processed message names keeps an
empty estimator register and an empty partition. -/
theorem processAll_stats_inv (l : LectureId) :
    ∀ (msgs : List (Env × RawMessage)) (st : SysState),
      (∀ p ∈ msgs, parsedLecture p.2 ≠ some l) →
      st.hll l = ∅ →
      st.store.filter (fun r0 => decide (r0.lecture_id = l)) = [] →
      getAttendanceStats (processAll st msgs) l =
        { unique_attendees := 0, attendance_records := [] }
  | [], st, _, h1, h2 => by
    simp [processAll, getAttendanceStats, h1, h2]
  | (e, m) :: rest, st, h, h1, h2 => by
    rw [processAll]
    refine processAll_stats_inv l rest _
      (fun p hp => h p (List.mem_cons_of_mem _ hp)) ?_ ?_
    · rw [processMessage_hll_other e st m l (h (e, m) (List.mem_cons_self _ _))]
      exact h1
    · rw [processMessage_storefilter_other e st m l (h (e, m) (List.mem_cons_self _ _))]
      exact h2

/-- C10: querying attendance statistics for a lecture for which no event
was ever processed succeeds and returns an approximate distinct-attendee
count of 0 together with an empty record list. -/
theorem c10_unknown_lecture (bloom : StudentId → Bool)
    (msgs : List (Env × RawMessage)) (l : LectureId)
    (h : ∀ p ∈ msgs, parsedLecture p.2 ≠ some l) :
    getAttendanceStats (processAll (initialState bloom) msgs) l =
      { unique_attendees := 0, attendance_records := [] } :=
  processAll_stats_inv l msgs (initialState bloom) h rfl rfl

/-- Witness for C10: after processing a message for lecture "L1", the stats
for the never-seen lecture "L2" are 0 attendees and no records. -/
theorem c10_witness :
    getAttendanceStats (processAll (initialState (fun _ => true)) [(okEnv, mW)]) "L2" =
      { unique_attendees := 0, attendance_records := [] } :=
  c10_unknown_lecture (fun _ => true) [(okEnv, mW)] "L2" (by decide)

end AttendanceSystem
